import Mathlib

/-!
# Verification of the idrac-wrapper session/command/job core

Shallow embedding of `src/idrac/idracaccessor.py` (class `IDrac` and
`IdracAccessor`).  Python values produced by `json.loads` are modelled by the
inductive type `JVal`; Python exceptions by `PyErr`; fallible code returns
`Except PyErr _`.  Network interaction is modelled by passing the responses of the controller
 (or a finite trace of poll responses) as explicit arguments.
-/

set_option autoImplicit false

namespace IdracWrapper

/-- JSON-like values: the result of Python `json.loads`. -/
inductive JVal where
  | null
  | bool (b : Bool)
  | num (n : Int)
  | str (s : String)
  | arr (xs : List JVal)
  | obj (fields : List (String × JVal))
deriving Repr, Inhabited

/-- The Python exceptions that the embedded code can raise or catch. -/
inductive PyErr where
  | keyError
  | indexError
  | typeError
  | jsonDecodeError
  | valueError (msg : String)
deriving Repr, DecidableEq

/-- Python subscript `v[k]` with a string key `k`:
a dict yields the mapped value or raises `KeyError`;
every other JSON value raises `TypeError`. -/
def subscriptStr : JVal → String → Except PyErr JVal
  | .obj fs, k =>
    match fs.lookup k with
    | some v => .ok v
    | none => .error .keyError
  | _, _ => .error .typeError

/-- Python subscript `v[0]`:
a list yields its head or raises `IndexError` when empty;
a string yields its first character (as a string) or raises `IndexError`;
a dict raises `KeyError` (JSON objects never carry the integer key `0`);
other values raise `TypeError`. -/
def subscriptZero : JVal → Except PyErr JVal
  | .arr [] => .error .indexError
  | .arr (x :: _) => .ok x
  | .str s => if s = "" then .error .indexError else .ok (.str (s.take 1))
  | .obj _ => .error .keyError
  | _ => .error .typeError

/-- Reply from commands (the `CommandReply` NamedTuple).  `msg` is dynamically
typed in the source (normally a string), so it is a `JVal` here. -/
structure CommandReply where
  succeeded : Bool
  msg : JVal
  results : Option JVal := none
  job : Option Int := none
deriving Repr

/-- A redfish `RestResponse` as consumed by the embedded code.
`parsed` is the result of `json.loads text`: `none` when `text` is not valid
JSON (so that `json.loads` raises `JSONDecodeError`). -/
structure RestResponse where
  status : Nat
  text : String
  parsed : Option JVal := none
  task_location : Option String := none
deriving Repr

/-- The subscript chain in `IDrac._message` — reply, then key "error", then key
"@Message.ExtendedInfo", then index 0, then key "Message" — with Python
subscript semantics. -/
def extendedInfoMessage (reply : JVal) : Except PyErr JVal := do
  let e ← subscriptStr reply "error"
  let ei ← subscriptStr e "@Message.ExtendedInfo"
  let m0 ← subscriptZero ei
  subscriptStr m0 "Message"

/-- Embedding of `IDrac._message`: parse the extended-error message out of a
reply body.
`json.loads` raises on a non-JSON body; the `try` block catches only
`KeyError`, returning the raw body text; every other exception propagates. -/
def message (parsed : Option JVal) (reply_text : String) : Except PyErr JVal :=
  match parsed with
  | none => .error .jsonDecodeError
  | some reply =>
    match extendedInfoMessage reply with
    | .ok extended => .ok extended
    | .error .keyError => .ok (.str reply_text)
    | .error e => .error e

/-- Value of a decimal digit list, most significant first. -/
def digitsToNat (l : List Char) : Nat :=
  l.foldl (fun a c => a * 10 + (c.toNat - 48)) 0

/-- Python builtin `int()` on a decimal digit string (the only shape that
occurs in task-location headers); any other string raises `ValueError`. -/
def pyInt (s : String) : Except PyErr Int :=
  if s ≠ "" ∧ s.data.all Char.isDigit then .ok (digitsToNat s.data)
  else .error (.valueError ("invalid literal for int: " ++ s))

/-- Split of a character list at every occurrence of `sep` (no collapsing of
adjacent separators), the semantics of Python `str.split` with a one-character
separator. -/
def splitCharList (sep : Char) : List Char → List (List Char)
  | [] => [[]]
  | c :: rest =>
    let r := splitCharList sep rest
    if c = sep then [] :: r
    else
      match r with
      | [] => [[c]]
      | h :: t => (c :: h) :: t

/-- Python `s.split(sep)` for a one-character separator. -/
def pySplit (sep : Char) (s : String) : List String :=
  (splitCharList sep s.data).map String.mk

/-- Python tuple unpacking of the split of `s` on the underscore character:
succeeds exactly when the split has two parts, otherwise raises `ValueError`. -/
def splitUnderscoreTwo (s : String) : Except PyErr (String × String) :=
  match pySplit '_' s with
  | [a, b] => .ok (a, b)
  | _ => .error (.valueError "unpack")

/-- Embedding of `IDrac._read_reply`: read status and compare against expected status code.
On a match, `job_id` starts at 0 and, when the task-location header is truthy
(present and nonempty), becomes the integer after the underscore.  On a
mismatch, `_message` is evaluated (twice in the source: once for the log line,
once for the reply) and a failed `CommandReply` is built with the default
`job=None`. -/
def read_reply (r : RestResponse) (expected_status : Nat) (good_message : String) :
    Except PyErr CommandReply :=
  if r.status = expected_status then
    match r.task_location with
    | some loc =>
      if loc ≠ "" then do
        let (_, jstr) ← splitUnderscoreTwo loc
        let job_id ← pyInt jstr
        pure ⟨true, .str good_message, none, some job_id⟩
      else pure ⟨true, .str good_message, none, some 0⟩
    | none => pure ⟨true, .str good_message, none, some 0⟩
  else do
    let _ ← message r.parsed r.text
    let m ← message r.parsed r.text
    pure ⟨false, m, none, none⟩

/-- Modelled from the spec: `JobStatus` — "{numeric status code, response
payload}. Not persisted; transient result of a poll."  The repository snapshot
imports `JobStatus` from `idrac/objects.py` but that file does not define it;
only its two fields `status` and `data` are used by the code under `src/`. -/
structure JobStatus where
  status : Nat
  data : String
deriving Repr, DecidableEq

/-- Embedding of `IDrac.job_status`, as a function of the poll response for
`/redfish/v1/TaskService/Tasks/JID_{job_id}` (already wrapped in a
`JobStatus`): return it on 200/202, return it on 404 when `allow404`,
otherwise raise `ValueError` whose message is the status code followed by the
payload. -/
def job_status (jstat : JobStatus) (allow404 : Bool) : Except PyErr JobStatus :=
  if jstat.status = 200 ∨ jstat.status = 202 then .ok jstat
  else if allow404 ∧ jstat.status = 404 then .ok jstat
  else .error (.valueError (toString jstat.status ++ " " ++ jstat.data))

/-- The fixed sleep interval of the poll loop: `time.sleep(.1)`,
in milliseconds. -/
def sleep_interval_ms : Nat := 100

/-- Embedding of `IDrac.wait_for`, driven by a finite trace of poll responses: poll, and
while the returned status is 202, sleep `sleep_interval_ms` and re-poll.
Returns the final `JobStatus` together with the number of sleeps taken;
`none` means the trace was exhausted while the loop was still polling. -/
def wait_for (polls : List JobStatus) (allow404 : Bool) :
    Option (Except PyErr (JobStatus × Nat)) :=
  match polls with
  | [] => none
  | p :: rest =>
    match job_status p allow404 with
    | .error e => some (.error e)
    | .ok jstat =>
      if jstat.status = 202 then
        match wait_for rest allow404 with
        | none => none
        | some (.error e) => some (.error e)
        | some (.ok (final, sleeps)) => some (.ok (final, sleeps + 1))
      else some (.ok (jstat, 0))

/-- Embedding of `IDrac._power`: posts the reset payload (key ResetType mapped
to `state`) to
`…/Actions/ComputerSystem.Reset` and reads the reply expecting 204.  The
response is an explicit argument; the returned list records the `ResetType`
of every power action posted. -/
def power (resp : RestResponse) (state : String) (command : String) :
    Except PyErr CommandReply × List String :=
  (read_reply resp 204 command, [state])

/-- Embedding of `IDrac.turn_off`: graceful shutdown when the summary reports
power "On",
otherwise a no-op success reply (and no post). -/
def turn_off (powerState : String) (resp : RestResponse) :
    Except PyErr CommandReply × List String :=
  if powerState = "On" then power resp "GracefulShutdown" "Shutdown"
  else (.ok ⟨true, .str "Already off", none, none⟩, [])

/-- Embedding of `IDrac.force_off`: forced power-off when the summary reports
power "On". -/
def force_off (powerState : String) (resp : RestResponse) :
    Except PyErr CommandReply × List String :=
  if powerState = "On" then power resp "ForceOff" "Force shutdown"
  else (.ok ⟨true, .str "Already off", none, none⟩, [])

/-- Embedding of `IDrac.turn_on`: power on when the summary reports power
"Off",
otherwise a no-op success reply (and no post). -/
def turn_on (powerState : String) (resp : RestResponse) :
    Except PyErr CommandReply × List String :=
  if powerState = "Off" then power resp "On" "Turn on"
  else (.ok ⟨true, .str "Already on", none, none⟩, [])

/-- Mirror of the `Account` dataclass. -/
structure Account where
  id : Int
  enabled : Bool
  name : String
  role : String
deriving Repr, DecidableEq

/-- Mirror of `ROLES`: the fixed role enumeration (Administrator, Operator,
ReadOnly, None). -/
def ROLES : List String := ["Administrator", "Operator", "ReadOnly", "None"]

/-- Embedding of `IDrac.unused_account_slot`, as a function of the decoded account listing
(`self.accounts()` in controller-provided order): the first slot with
`id > 1 and not enabled and empty name`, else
`ValueError("All account slots in use")`. -/
def unused_account_slot : List Account → Except PyErr Int
  | [] => .error (.valueError "All account slots in use")
  | current :: rest =>
    if current.id > 1 ∧ ¬current.enabled ∧ current.name = "" then .ok current.id
    else unused_account_slot rest

/-- What `IDrac.create_account` decides to do, up to the HTTP PATCH: return
without patching (after a warning), or issue one PATCH with
UserName, Password, RoleId and Enabled=True on the account URL of the slot. -/
inductive CreateOutcome where
  | noop
  | patched (slot : Int) (name : String) (password : String) (role : String)
deriving Repr, DecidableEq

/-- Embedding of `IDrac.create_account`, as a function of the decoded account listing
(`existing = list(self.accounts())`): reject a role outside `ROLES`; return
(no-op) when some existing account already has `name`; `ValueError` when no
account has id `slot`; `ValueError` when the first account with id `slot`
is enabled or named; otherwise patch the slot.  The code after the PATCH
only prints or logs the response of the controller. -/
def create_account (existing : List Account) (slot : Int) (name : String)
    (password : String) (role : String) : Except PyErr CreateOutcome :=
  if role ∉ ROLES then
    .error (.valueError ("Role " ++ role ++ " must in bin " ++ String.intercalate "," ROLES))
  else if existing.filter (fun e => e.name = name) ≠ [] then
    .ok .noop
  else
    match existing.find? (fun e => e.id = slot) with
    | none => .error (.valueError ("slot " ++ toString slot ++ " not found"))
    | some current =>
      if current.enabled ∨ current.name ≠ "" then
        .error (.valueError ("Account " ++ toString slot ++ " in use"))
      else .ok (.patched slot name password role)

/-- The `IDrac` handle as built by `IDrac.__init__`: the fields relevant to
the session lifecycle (`self.session_key = sessionkey`, stored unchanged). -/
structure IDracHandle where
  idracname : String
  session_key : Option String
deriving Repr, DecidableEq

/-- The environment one `IdracAccessor.connect` call runs in:
the sessions mapping of `self.state_data` (loaded from the session-cache
file by `__init__`), whether each of the two `redfish_client` constructions
succeeds (`ServerDownOrUnreachableError` otherwise), the keyring state, which
passwords the controller accepts at login, and which cached session tokens the
controller would accept (the last oracle exists so that token-reuse properties
can be stated; the source never presents a token). -/
structure ConnectEnv where
  sessions : List (String × String)
  reachable1 : Bool
  reachable2 : Bool
  keyringAvail : Bool
  keyringPw : Option String
  accepts : String → Bool
  acceptsToken : String → Bool

/-- Observable effects of one `IdracAccessor.connect` call. -/
structure ConnectTrace where
  handle : IDracHandle
  writtenSessions : List (String × String)
  writeMode : Nat
  credentialStoreQueried : Bool
  providerCalls : Nat
  keyringSaved : Bool
deriving Repr, DecidableEq

/-- Embedding of `IdracAccessor._login`: try `pw`; on a 401 `InvalidCredentialsError`,
request a new password from `password_fn` and retry.  `provider` is the
interactive password provider (call number ↦ password), `idx` the number of
provider calls already made, `fuel` bounds the unbounded retry loop so that it
is a total function (`none` = still looping when the fuel runs out). -/
def login_loop (accepts : String → Bool) (provider : Nat → String) :
    Nat → Nat → String → Option (String × Nat)
  | fuel, idx, pw =>
    if accepts pw then some (pw, idx)
    else
      match fuel with
      | 0 => none
      | fuel' + 1 => login_loop accepts provider fuel' (idx + 1) (provider idx)

/-- Failure mode of `IdracAccessor.connect`: `ServerDownOrUnreachableError`
escaping both client constructions. -/
inductive ConnectErr where
  | serverDown
deriving Repr, DecidableEq

/-- Embedding of `IdracAccessor.connect`: translated line by line from the source.
`sessionkey` is initialised to `None`; the first `redfish_client` construction
uses it, and on `ServerDownOrUnreachableError` the construction is retried
with `sessionkey := None`; a second failure propagates.  Then, since
`sessionkey is None`, the fresh-login block always runs: query the keyring
(`credentialStoreQueried` is unconditionally `true`), fall back to the
provider when the keyring is locked or empty, run the `_login` retry loop,
rewrite the session-cache file with `self.state_data` (opened with mode
0o600), save the password to the keyring when it did not come from there, and
return `IDrac(hostname, client, sessionkey)`.  The outer `Option` is `none`
when the login loop is still running after `fuel` provider calls. -/
def connect (env : ConnectEnv) (provider : Nat → String) (fuel : Nat)
    (hostname : String) : Except ConnectErr (Option ConnectTrace) :=
  let sessionkey : Option String := none
  if ¬env.reachable1 ∧ ¬env.reachable2 then .error .serverDown
  else
    -- `if sessionkey is None:` — true on both construction paths
    let good_keyring : Bool := env.keyringAvail && env.keyringPw.isSome
    let pw0 : String := if good_keyring then env.keyringPw.getD "" else provider 0
    let idx0 : Nat := if good_keyring then 0 else 1
    match login_loop env.accepts provider fuel idx0 pw0 with
    | none => .ok none
    | some (_, idx) =>
      .ok (some
        { handle := ⟨hostname, sessionkey⟩
          writtenSessions := env.sessions
          writeMode := 0o600
          credentialStoreQueried := true
          providerCalls := idx
          keyringSaved := env.keyringAvail && !good_keyring })

/-! ## Theorems -/

/-- C3 (counterexample): the builder does raise on a mismatched status whose
body is not valid JSON — `json.loads` raises `JSONDecodeError` inside
`_message` and nothing catches it, so `_read_reply` does not return a
`CommandReply(succeeded=false)`. -/
theorem read_reply_raises_on_non_json :
    read_reply ⟨500, "oops", none, none⟩ 204 "Shutdown" = .error .jsonDecodeError := rfl

/-- C3 (amended): for a response whose status differs from the expected status
and whose body parses as JSON, the builder returns
`CommandReply(succeeded=false)` whose message is the nested extended-error
message when the subscript chain succeeds, and the raw body text when the
chain fails with a missing key; a body that is not valid JSON (or a JSON body
on which the chain fails other than by a missing key) makes it raise. -/
theorem read_reply_mismatch_message (r : RestResponse) (expected : Nat)
    (good : String) (reply : JVal) (hne : r.status ≠ expected)
    (hp : r.parsed = some reply) :
    (∀ m, extendedInfoMessage reply = .ok m →
      read_reply r expected good = .ok ⟨false, m, none, none⟩) ∧
    (extendedInfoMessage reply = .error .keyError →
      read_reply r expected good = .ok ⟨false, .str r.text, none, none⟩) := by
  constructor
  · intro m hm
    simp [read_reply, hne, message, hp, hm, Bind.bind, Except.bind, Pure.pure, Except.pure]
  · intro hm
    simp [read_reply, hne, message, hp, hm, Bind.bind, Except.bind, Pure.pure, Except.pure]

/-- C3 witness: a 500 response with body text "eoops" parsing to the empty
JSON object (no "error" key) against expected status 204 falls back to the raw
body text. -/
theorem read_reply_mismatch_message_witness :
    read_reply ⟨500, "eoops", some (.obj []), none⟩ 204 "g" =
      .ok ⟨false, .str "eoops", none, none⟩ :=
  (read_reply_mismatch_message ⟨500, "eoops", some (.obj []), none⟩ 204 "g"
    (.obj []) (by decide) rfl).2 rfl

/-- C4: when the response status matches the expected status, the job id of
the reply is the integer suffix of the task-location header when that header
is present (of the form prefix-underscore-digits), and 0 when the header is
absent. -/
theorem read_reply_job_extraction (r : RestResponse) (expected : Nat)
    (good : String) (hs : r.status = expected) :
    (∀ loc p ds, r.task_location = some loc → loc ≠ "" →
      pySplit '_' loc = [p, ds] → ds ≠ "" → ds.data.all Char.isDigit →
      read_reply r expected good =
        .ok ⟨true, .str good, none, some (digitsToNat ds.data)⟩) ∧
    (r.task_location = none →
      read_reply r expected good = .ok ⟨true, .str good, none, some 0⟩) := by
  constructor
  · intro loc p ds hloc hne hsplit hds hdig
    simp [read_reply, hs, hloc, hne, splitUnderscoreTwo, hsplit, pyInt, hds, hdig,
      Bind.bind, Except.bind, Pure.pure, Except.pure]
  · intro hloc
    simp [read_reply, hs, hloc, Pure.pure, Except.pure]

/-- C4 witness: the header "Tasks_482" on a 204 response against expected 204
yields job 482; the absent header yields job 0. -/
theorem read_reply_job_extraction_witness :
    read_reply ⟨204, "", none, some "Tasks_482"⟩ 204 "ok" =
      .ok ⟨true, .str "ok", none, some 482⟩ ∧
    read_reply ⟨204, "", none, none⟩ 204 "ok" =
      .ok ⟨true, .str "ok", none, some 0⟩ :=
  ⟨(read_reply_job_extraction ⟨204, "", none, some "Tasks_482"⟩ 204 "ok" rfl).1
      "Tasks_482" "Tasks" "482" rfl (by decide) (by decide) (by decide) (by decide),
   (read_reply_job_extraction ⟨204, "", none, none⟩ 204 "ok" rfl).2 rfl⟩

/-- Helper: whenever the poll loop returns a `JobStatus`, its status is not
202 (the loop keeps polling on 202). -/
theorem wait_for_ok_not_202 (allow : Bool) :
    ∀ (polls : List JobStatus) (final : JobStatus) (n : Nat),
      wait_for polls allow = some (.ok (final, n)) → final.status ≠ 202 := by
  intro polls
  induction polls with
  | nil => intro final n h; simp [wait_for] at h
  | cons p rest ih =>
    intro final n h
    unfold wait_for at h
    split at h
    · simp at h
    · rename_i jstat hjs
      split at h
      · rename_i h202
        split at h
        · cases h
        · simp at h
        · rename_i f s hrec
          simp at h
          exact h.1 ▸ ih f s hrec
      · rename_i h202
        simp at h
        exact h.1 ▸ h202

/-- C5: the poll loop sleeps the fixed 100 ms interval exactly once after each
poll reporting 202, returns the first poll reporting 200 with no further
sleep (k sleeps for k leading 202 polls), and never returns a status-202
result. -/
theorem wait_for_sleeps_until_200 (k : Nat) (d d' : String)
    (rest : List JobStatus) (allow : Bool) :
    wait_for (List.replicate k ⟨202, d⟩ ++ ⟨200, d'⟩ :: rest) allow =
      some (.ok (⟨200, d'⟩, k)) ∧
    sleep_interval_ms = 100 ∧
    (∀ polls final n, wait_for polls allow = some (.ok (final, n)) →
      final.status ≠ 202) := by
  refine ⟨?_, rfl, fun polls => wait_for_ok_not_202 allow polls⟩
  induction k with
  | zero => simp [wait_for, job_status]
  | succ k ih =>
    rw [List.replicate_succ, List.cons_append]
    unfold wait_for
    rw [ih]
    simp [job_status]

/-- C5 witness: two in-progress polls then a complete poll make the loop sleep
twice and return the 200 result. -/
theorem wait_for_sleeps_until_200_witness :
    wait_for (List.replicate 2 ⟨202, "p"⟩ ++ ⟨200, "done"⟩ :: []) false =
      some (.ok (⟨200, "done"⟩, 2)) :=
  (wait_for_sleeps_until_200 2 "p" "done" [] false).1

/-- C6: a 404 poll is returned normally when `allow404` is set, raises when it
is not, and any status other than 200, 202 or an allowed 404 raises a
`ValueError` carrying the code and payload. -/
theorem wait_for_404_handling (d : String) (rest : List JobStatus) (s : Nat)
    (hs200 : s ≠ 200) (hs202 : s ≠ 202) (hs404 : s ≠ 404) :
    wait_for (⟨404, d⟩ :: rest) true = some (.ok (⟨404, d⟩, 0)) ∧
    wait_for (⟨404, d⟩ :: rest) false =
      some (.error (.valueError (toString 404 ++ " " ++ d))) ∧
    (∀ allow payload, job_status ⟨s, payload⟩ allow =
      .error (.valueError (toString s ++ " " ++ payload))) := by
  refine ⟨?_, ?_, ?_⟩
  · simp [wait_for, job_status]
  · simp [wait_for, job_status]
  · intro allow payload
    simp [job_status, hs200, hs202, hs404]

/-- C6 witness: a 404 poll returns normally with `allow404`, and a 500 poll
raises the code-and-payload error. -/
theorem wait_for_404_handling_witness :
    wait_for [⟨404, "gone"⟩] true = some (.ok (⟨404, "gone"⟩, 0)) ∧
    job_status ⟨500, "boom"⟩ false = .error (.valueError "500 boom") :=
  ⟨(wait_for_404_handling "gone" [] 500 (by decide) (by decide) (by decide)).1,
   (wait_for_404_handling "gone" [] 500 (by decide) (by decide) (by decide)).2.2
     false "boom"⟩

/-- Helper: on a matching status, any `CommandReply` the builder returns is a
success carrying the good message. -/
theorem read_reply_match_ok (r : RestResponse) (expected : Nat) (good : String)
    (hs : r.status = expected) (rep : CommandReply)
    (h : read_reply r expected good = .ok rep) :
    rep.succeeded = true ∧ rep.msg = .str good := by
  unfold read_reply at h
  rw [if_pos hs] at h
  split at h
  · rename_i loc hloc
    split at h
    · cases hsp : splitUnderscoreTwo loc with
      | error e =>
        rw [hsp] at h
        simp only [Bind.bind, Except.bind] at h
        exact Except.noConfusion h
      | ok ab =>
        obtain ⟨a, b⟩ := ab
        rw [hsp] at h
        simp only [Bind.bind, Except.bind] at h
        cases hpi : pyInt b with
        | error e =>
          rw [hpi] at h
          simp only [Except.bind] at h
          exact Except.noConfusion h
        | ok j =>
          rw [hpi] at h
          simp only [Except.bind, Pure.pure, Except.pure, Except.ok.injEq] at h
          subst h
          exact ⟨rfl, rfl⟩
    · simp only [Pure.pure, Except.pure, Except.ok.injEq] at h
      subst h
      exact ⟨rfl, rfl⟩
  · simp only [Pure.pure, Except.pure, Except.ok.injEq] at h
    subst h
    exact ⟨rfl, rfl⟩

/-- C7: `turn_off` issues exactly one graceful-shutdown action when the
observed power state is "On" (and the reply on a 204 response is a success
with the shutdown message), and issues zero actions with a no-op success reply
otherwise; `turn_on` behaves symmetrically around the "Off" state. -/
theorem power_transitions_idempotent (powerState : String) (resp : RestResponse) :
    (powerState = "On" →
      (turn_off powerState resp).2 = ["GracefulShutdown"] ∧
      (resp.status = 204 → ∀ rep, (turn_off powerState resp).1 = .ok rep →
        rep.succeeded = true ∧ rep.msg = .str "Shutdown")) ∧
    (powerState ≠ "On" →
      (turn_off powerState resp).2 = [] ∧
      (turn_off powerState resp).1 = .ok ⟨true, .str "Already off", none, none⟩) ∧
    (powerState = "Off" →
      (turn_on powerState resp).2 = ["On"] ∧
      (resp.status = 204 → ∀ rep, (turn_on powerState resp).1 = .ok rep →
        rep.succeeded = true ∧ rep.msg = .str "Turn on")) ∧
    (powerState ≠ "Off" →
      (turn_on powerState resp).2 = [] ∧
      (turn_on powerState resp).1 = .ok ⟨true, .str "Already on", none, none⟩) := by
  refine ⟨?_, ?_, ?_, ?_⟩
  · intro hOn
    refine ⟨by simp [turn_off, hOn, power], ?_⟩
    intro h204 rep hrep
    rw [turn_off, if_pos hOn] at hrep
    exact read_reply_match_ok resp 204 "Shutdown" h204 rep hrep
  · intro hOn
    simp [turn_off, hOn]
  · intro hOff
    refine ⟨by simp [turn_on, hOff, power], ?_⟩
    intro h204 rep hrep
    rw [turn_on, if_pos hOff] at hrep
    exact read_reply_match_ok resp 204 "Turn on" h204 rep hrep
  · intro hOff
    simp [turn_on, hOff]

/-- C7 witness: in state "On" the shutdown action is posted exactly once, and
in state "Standby" the power-on command is a no-op success. -/
theorem power_transitions_idempotent_witness :
    (turn_off "On" ⟨204, "", none, none⟩).2 = ["GracefulShutdown"] ∧
    (turn_on "Standby" ⟨204, "", none, none⟩).1 =
      .ok ⟨true, .str "Already on", none, none⟩ :=
  ⟨((power_transitions_idempotent "On" ⟨204, "", none, none⟩).1 rfl).1,
   ((power_transitions_idempotent "Standby" ⟨204, "", none, none⟩).2.2.2
     (by decide)).2⟩

/-- The free-slot invariant of the spec, as a Boolean predicate on accounts:
eligible iff id > 1, not enabled, and empty name. -/
def isFreeSlot (a : Account) : Bool :=
  decide (1 < a.id) && !a.enabled && decide (a.name = "")

/-- C8: the slot scan returns the id of the first account (in listing order)
satisfying the free-slot invariant, that id is greater than 1 (so never 0 or
1), and the scan fails with the no-free-slot error when no account
qualifies. -/
theorem unused_account_slot_first_free (accts : List Account) :
    (∀ a, accts.find? isFreeSlot = some a →
      unused_account_slot accts = .ok a.id) ∧
    (∀ i, unused_account_slot accts = .ok i → 1 < i ∧ i ≠ 0 ∧ i ≠ 1) ∧
    (accts.find? isFreeSlot = none →
      unused_account_slot accts = .error (.valueError "All account slots in use")) := by
  induction accts with
  | nil =>
    refine ⟨?_, ?_, ?_⟩
    · intro a ha; simp at ha
    · intro i hi; simp [unused_account_slot] at hi
    · intro _; rfl
  | cons c rest ih =>
    by_cases hfree : c.id > 1 ∧ ¬c.enabled ∧ c.name = ""
    · have hb : isFreeSlot c = true := by
        simp [isFreeSlot, hfree.1, hfree.2.1, hfree.2.2]
      refine ⟨?_, ?_, ?_⟩
      · intro a ha
        rw [List.find?_cons_of_pos _ hb] at ha
        cases ha
        rw [unused_account_slot, if_pos hfree]
      · intro i hi
        rw [unused_account_slot, if_pos hfree] at hi
        cases hi
        exact ⟨hfree.1, by omega, by omega⟩
      · intro hnone
        rw [List.find?_cons_of_pos _ hb] at hnone
        cases hnone
    · have hb : isFreeSlot c = false := by
        rcases not_and_or.1 hfree with h1 | h23
        · simp [isFreeSlot, h1]
        · rcases not_and_or.1 h23 with h2 | h3
          · simp [isFreeSlot, not_not.1 h2]
          · simp [isFreeSlot, h3]
      refine ⟨?_, ?_, ?_⟩
      · intro a ha
        rw [List.find?_cons_of_neg _ (by simp [hb])] at ha
        rw [unused_account_slot, if_neg hfree]
        exact ih.1 a ha
      · intro i hi
        rw [unused_account_slot, if_neg hfree] at hi
        exact ih.2.1 i hi
      · intro hnone
        rw [List.find?_cons_of_neg _ (by simp [hb])] at hnone
        rw [unused_account_slot, if_neg hfree]
        exact ih.2.2 hnone

/-- C8 witness: the listing with reserved slots 0 and 1 enabled and slot 2
free yields slot 2. -/
theorem unused_account_slot_first_free_witness :
    unused_account_slot
      [⟨0, true, "root", "Administrator"⟩, ⟨1, true, "admin", "Operator"⟩,
       ⟨2, false, "", "None"⟩] = .ok 2 :=
  (unused_account_slot_first_free
      [⟨0, true, "root", "Administrator"⟩, ⟨1, true, "admin", "Operator"⟩,
       ⟨2, false, "", "None"⟩]).1 ⟨2, false, "", "None"⟩ (by decide)

/-- C9: when the listing already contains an account with the requested name
(and the role is one of the fixed enumeration, as on a repeat of a successful
call), `create_account` is a no-op: it returns without issuing a PATCH. -/
theorem create_account_existing_name_noop (existing : List Account) (slot : Int)
    (name password role : String) (hrole : role ∈ ROLES)
    (a : Account) (ha : a ∈ existing) (hname : a.name = name) :
    create_account existing slot name password role = .ok .noop := by
  unfold create_account
  rw [if_neg (not_not_intro hrole)]
  rw [if_pos ?filterNonempty]
  case filterNonempty =>
    have hmem : a ∈ existing.filter (fun e => decide (e.name = name)) :=
      List.mem_filter.2 ⟨ha, by simp [hname]⟩
    intro hnil
    rw [hnil] at hmem
    cases hmem

/-- C9 witness: a repeat call with name "svc" against a listing that already
holds an enabled account "svc" returns the no-op outcome. -/
theorem create_account_existing_name_noop_witness :
    create_account [⟨2, true, "svc", "Operator"⟩] 3 "svc" "pw" "Operator" =
      .ok .noop :=
  create_account_existing_name_noop [⟨2, true, "svc", "Operator"⟩] 3 "svc" "pw"
    "Operator" (by decide) ⟨2, true, "svc", "Operator"⟩ (by decide) rfl

/-- C10: on every path of `connect` that returns a controller handle, the
session key stored in the handle is `None`: the `sessionkey` variable is
initialised to `None`, the only later assignment stores `None` again, and the
variable is passed unchanged into the `IDrac` constructor. -/
theorem connect_session_key_always_none (env : ConnectEnv)
    (provider : Nat → String) (fuel : Nat) (hostname : String)
    (t : ConnectTrace) (h : connect env provider fuel hostname = .ok (some t)) :
    t.handle.session_key = none := by
  unfold connect at h
  split at h
  · exact Except.noConfusion h
  · dsimp only at h
    split at h
    · simp at h
    · simp only [Except.ok.injEq, Option.some.injEq] at h
      subst h
      rfl

/-- Demonstration environment: a reachable controller, a usable keyring
holding an accepted password, no cached sessions. -/
def demoEnv : ConnectEnv :=
  ⟨[], true, true, true, some "secret", fun pw => pw == "secret", fun _ => false⟩

/-- C10 witness: connecting in the demonstration environment yields the trace
whose handle carries no session key. -/
theorem connect_session_key_always_none_witness :
    (⟨⟨"bmc9", none⟩, [], 0o600, true, 0, false⟩ : ConnectTrace).handle.session_key = none :=
  connect_session_key_always_none demoEnv (fun _ => "x") 0 "bmc9"
    ⟨⟨"bmc9", none⟩, [], 0o600, true, 0, false⟩ rfl

/-- Failing scenario of C1: the session cache maps "bmc1" to token "TOK1",
the controller would accept that token, and the keyring holds an accepted
password. -/
def cachedTokenEnv : ConnectEnv :=
  ⟨[("bmc1", "TOK1")], true, true, true, some "secret",
   fun pw => pw == "secret", fun tok => tok == "TOK1"⟩

/-- C1 (code bug): even when the session cache maps the hostname to a token
the controller would accept, `connect` queries the credential store
(`keyring.get_password` runs unconditionally), performs a fresh password
login, and returns a handle whose session key is `None` — the cached token is
never presented to the controller. -/
theorem connect_ignores_cached_token :
    cachedTokenEnv.sessions.lookup "bmc1" = some "TOK1" ∧
    cachedTokenEnv.acceptsToken "TOK1" = true ∧
    connect cachedTokenEnv (fun _ => "secret") 0 "bmc1" =
      .ok (some ⟨⟨"bmc1", none⟩, [("bmc1", "TOK1")], 0o600, true, 0, false⟩) :=
  ⟨rfl, rfl, rfl⟩

/-- Failing scenario of C2: empty session cache, usable but empty keyring, a
fresh successful login with the password from the interactive provider. -/
def freshLoginEnv : ConnectEnv :=
  ⟨[], true, true, true, none, fun pw => pw == "newpw", fun _ => false⟩

/-- Observable effects of `connect` in `freshLoginEnv`. -/
def freshLoginTrace : ConnectTrace :=
  ⟨⟨"bmc1", none⟩, [], 0o600, true, 1, true⟩

/-- C2 (code bug): after a successful fresh login the session-cache file is
rewritten with mode 0o600, but its contents are the startup `state_data`
unchanged — the mapping for the hostname is still absent, because the token
just issued is never stored into the sessions dictionary. -/
theorem connect_never_records_token :
    connect freshLoginEnv (fun _ => "newpw") 0 "bmc1" =
      .ok (some freshLoginTrace) ∧
    freshLoginTrace.writtenSessions.lookup "bmc1" = none ∧
    freshLoginTrace.writeMode = 0o600 :=
  ⟨rfl, rfl, rfl⟩

end IdracWrapper
